import Mathlib

/-!
Verification of the credential-store bridge in
`src/frontend/src-tauri/src/lib.rs` (pmartin1915/land-app).

The bridge owns two named secrets (`auth_token`, `refresh_token`) under one
constant service identifier and exposes store / fetch / clear operations plus
a pure read of build-time server metadata.  The OS vault is external: we model
its contents as a map from (service, account) keys to secret strings, and its
possible failures as a fault oracle telling, for each vault primitive and key,
whether that call is rejected by the backend (and with which `keyring::Error`).
-/

namespace LandApp

/-- The constant service identifier `SERVICE_NAME` from the source. -/
def SERVICE_NAME : String := "alabama-auction-watcher"

/-- The fallback endpoint constant `DEFAULT_SERVER_URL` from the source. -/
def DEFAULT_SERVER_URL : String := "http://localhost:8001"

/-- Errors surfaced by the external vault (`keyring::Error`): `noEntry` is the
distinguished absence error, `other` covers every other backend error. -/
inductive KError where
  | noEntry : KError
  | other : String → KError
deriving DecidableEq, Repr

/-- Display text of a keyring error, as interpolated by `format!("{}", e)`. -/
def KError.toMessage : KError → String
  | .noEntry => "No matching entry found in secure storage"
  | .other msg => msg

/-- A vault key: (service identifier, account identifier), as passed to
`Entry::new(service, account)`. -/
abbrev VKey := String × String

/-- The vault contents: at most one secret per (service, account) key. -/
def Store := VKey → Option String

/-- Fault oracle for the external OS vault: for each primitive and key, `none`
means the call succeeds and `some e` means the backend rejects it with `e`. -/
structure Faults where
  entryNew : VKey → Option KError
  setPassword : VKey → String → Option KError
  getPassword : VKey → Option KError
  deleteCredential : VKey → Option KError

/-- The key of the primary token: `Entry::new(SERVICE_NAME, "auth_token")`. -/
def authKey : VKey := (SERVICE_NAME, "auth_token")

/-- The key of the refresh token: `Entry::new(SERVICE_NAME, "refresh_token")`. -/
def refreshKey : VKey := (SERVICE_NAME, "refresh_token")

/-- Overwrite the secret stored under `k`. -/
def Store.set (s : Store) (k : VKey) (v : String) : Store :=
  fun k' => if k' = k then some v else s k'

/-- Remove the secret stored under `k`. -/
def Store.del (s : Store) (k : VKey) : Store :=
  fun k' => if k' = k then none else s k'

/-- `entry.set_password(v)`: either the backend rejects the write (state
unchanged) or `v` is stored under the entry's key, overwriting any prior
value. -/
def set_password (f : Faults) (s : Store) (k : VKey) (v : String) :
    Except KError Unit × Store :=
  match f.setPassword k v with
  | some e => (.error e, s)
  | none => (.ok (), s.set k v)

/-- `entry.get_password()`: a faulted read returns the injected backend error;
otherwise a present secret is returned and an absent one reports `NoEntry`. -/
def get_password (f : Faults) (s : Store) (k : VKey) : Except KError String :=
  match f.getPassword k with
  | some e => .error e
  | none =>
    match s k with
    | some v => .ok v
    | none => .error .noEntry

/-- `entry.delete_credential()`: either the backend rejects the deletion
(state unchanged) or the entry under the key is removed. -/
def delete_credential (f : Faults) (s : Store) (k : VKey) :
    Except KError Unit × Store :=
  match f.deleteCredential k with
  | some e => (.error e, s)
  | none => (.ok (), s.del k)

/-- The structured error returned by the bridge commands. -/
structure AuthError where
  code : String
  message : String
deriving DecidableEq, Repr

/-- The static server metadata returned by `get_server_info`. -/
structure ServerInfo where
  server_url : String
  is_development : Bool
  tauri_version : String
deriving DecidableEq, Repr

/-- Build-time configuration: the optional `TAURI_API_URL` environment value,
the `debug_assertions` flag, and the `CARGO_PKG_VERSION` string. -/
structure BuildConfig where
  tauri_api_url : Option String
  debug_assertions : Bool
  cargo_pkg_version : String

/-- `store_auth_token(token, refresh_token)`: open the `auth_token` entry
(`KEYRING_ERROR` on failure), write `token` (`STORE_ERROR` on failure); when a
refresh token is supplied, likewise open the `refresh_token` entry and write
it; finally return `Ok(true)`. -/
def store_auth_token (f : Faults) (s : Store) (token : String)
    (refresh_token : Option String) : Except AuthError Bool × Store :=
  match f.entryNew authKey with
  | some e =>
      (.error ⟨"KEYRING_ERROR", "Failed to access keyring: " ++ e.toMessage⟩, s)
  | none =>
    match set_password f s authKey token with
    | (.error e, s') =>
        (.error ⟨"STORE_ERROR", "Failed to store token: " ++ e.toMessage⟩, s')
    | (.ok _, s1) =>
      match refresh_token with
      | none => (.ok true, s1)
      | some refresh =>
        match f.entryNew refreshKey with
        | some e =>
            (.error ⟨"KEYRING_ERROR",
              "Failed to access keyring for refresh token: " ++ e.toMessage⟩, s1)
        | none =>
          match set_password f s1 refreshKey refresh with
          | (.error e, s') =>
              (.error ⟨"STORE_ERROR",
                "Failed to store refresh token: " ++ e.toMessage⟩, s')
          | (.ok _, s2) => (.ok true, s2)

/-- `get_auth_token()`: open the `auth_token` entry (`KEYRING_ERROR` on
failure), then read it: a present secret yields `Ok(Some(_))`, `NoEntry`
yields `Ok(None)`, and any other read failure yields `RETRIEVE_ERROR`. -/
def get_auth_token (f : Faults) (s : Store) :
    Except AuthError (Option String) × Store :=
  match f.entryNew authKey with
  | some e =>
      (.error ⟨"KEYRING_ERROR", "Failed to access keyring: " ++ e.toMessage⟩, s)
  | none =>
    match get_password f s authKey with
    | .ok password => (.ok (some password), s)
    | .error .noEntry => (.ok none, s)
    | .error e =>
        (.error ⟨"RETRIEVE_ERROR", "Failed to retrieve token: " ++ e.toMessage⟩, s)

/-- `clear_auth_tokens()`: best-effort deletion of both entries; every failure
of `Entry::new` or `delete_credential` is discarded and `Ok(true)` is always
returned. -/
def clear_auth_tokens (f : Faults) (s : Store) : Except AuthError Bool × Store :=
  let s1 :=
    match f.entryNew authKey with
    | some _ => s
    | none => (delete_credential f s authKey).2
  let s2 :=
    match f.entryNew refreshKey with
    | some _ => s1
    | none => (delete_credential f s1 refreshKey).2
  (.ok true, s2)

/-- `get_server_info()`: the server URL from the build-time `TAURI_API_URL`
value with the fixed default as fallback, the debug flag, and the package
version. -/
def get_server_info (c : BuildConfig) : ServerInfo :=
  { server_url := c.tauri_api_url.getD DEFAULT_SERVER_URL
    is_development := c.debug_assertions
    tauri_version := c.cargo_pkg_version }

/-! Helper lemmas shared by the claim theorems. -/

/-- The two accounts are distinct keys. -/
theorem refreshKey_ne_authKey : refreshKey ≠ authKey := by
  simp [authKey, refreshKey]

/-- The result of `get_auth_token` depends on the vault contents only through
the value stored under `authKey`. -/
theorem get_auth_token_fst_congr (f : Faults) (s s' : Store)
    (h : s authKey = s' authKey) :
    (get_auth_token f s).1 = (get_auth_token f s').1 := by
  unfold get_auth_token get_password
  rw [h]
  cases f.entryNew authKey with
  | some e => rfl
  | none =>
    cases f.getPassword authKey with
    | some e => cases e <;> rfl
    | none => cases s' authKey <;> rfl

/-- All-succeeding fault oracle: every vault call goes through. -/
def noFaults : Faults :=
  { entryNew := fun _ => none
    setPassword := fun _ _ => none
    getPassword := fun _ => none
    deleteCredential := fun _ => none }

/-- The empty vault. -/
def emptyStore : Store := fun _ => none

/-! Claim theorems. -/

/-- C9: when no refresh token is supplied, `store_auth_token` performs no
vault operation on the `refresh_token` account: the entry under `refreshKey`
is left exactly as it was, in every fault scenario. -/
theorem store_none_preserves_refresh_entry (f : Faults) (s : Store) (t : String) :
    (store_auth_token f s t none).2 refreshKey = s refreshKey := by
  unfold store_auth_token
  cases h1 : f.entryNew authKey with
  | some e => rfl
  | none =>
    cases h2 : f.setPassword authKey t with
    | some e => simp [set_password, h2]
    | none => simp [set_password, h2, Store.set, refreshKey_ne_authKey]

/-- C3: `clear_auth_tokens` reports success for every vault state and every
outcome of the underlying vault calls: no error is ever propagated. -/
theorem clear_auth_tokens_always_ok (f : Faults) (s : Store) :
    (clear_auth_tokens f s).1 = .ok true := rfl

/-- C6: `get_server_info` is pure and total: it is a function of the build
configuration alone, never errors, resolves the URL from the build-time value
with the fixed default as fallback, reports the debug flag, and reports the
baked-in package version. -/
theorem get_server_info_spec (c : BuildConfig) :
    (∀ u, c.tauri_api_url = some u → (get_server_info c).server_url = u) ∧
    (c.tauri_api_url = none → (get_server_info c).server_url = DEFAULT_SERVER_URL) ∧
    (get_server_info c).is_development = c.debug_assertions ∧
    (get_server_info c).tauri_version = c.cargo_pkg_version := by
  refine ⟨fun u hu => ?_, fun hn => ?_, rfl, rfl⟩
  · simp [get_server_info, hu]
  · simp [get_server_info, hn]

/-- Closed instance of C6: with `TAURI_API_URL` unset, a debug build at
package version 0.1.0 reports the default URL, the development flag, and that
version. -/
theorem get_server_info_spec_witness :
    (get_server_info ⟨none, true, "0.1.0"⟩).server_url = DEFAULT_SERVER_URL ∧
    (get_server_info ⟨none, true, "0.1.0"⟩).is_development = true ∧
    (get_server_info ⟨none, true, "0.1.0"⟩).tauri_version = "0.1.0" :=
  ⟨(get_server_info_spec ⟨none, true, "0.1.0"⟩).2.1 rfl,
   (get_server_info_spec ⟨none, true, "0.1.0"⟩).2.2.1,
   (get_server_info_spec ⟨none, true, "0.1.0"⟩).2.2.2⟩

/-- Fault oracle that rejects only the write to the `refresh_token` account. -/
def refreshWriteFaults : Faults :=
  { entryNew := fun _ => none
    setPassword := fun k _ => if k = refreshKey then some (.other "write rejected") else none
    getPassword := fun _ => none
    deleteCredential := fun _ => none }

/-- C1: after a successful `store_auth_token(t, r)` (any `r`), a subsequent
`get_auth_token()` on the resulting vault state, with the read not rejected by
the backend, returns exactly `t`. -/
theorem store_then_get_roundtrip (f : Faults) (s : Store) (t : String)
    (r : Option String) (b : Bool) (s' : Store)
    (hstore : store_auth_token f s t r = (.ok b, s'))
    (hget : f.getPassword authKey = none) :
    (get_auth_token f s').1 = .ok (some t) := by
  have hne : refreshKey ≠ authKey := refreshKey_ne_authKey
  cases h1 : f.entryNew authKey with
  | some e => simp [store_auth_token, h1] at hstore
  | none =>
    cases h2 : f.setPassword authKey t with
    | some e => simp [store_auth_token, set_password, h1, h2] at hstore
    | none =>
      cases r with
      | none =>
        simp [store_auth_token, set_password, h1, h2] at hstore
        obtain ⟨hb, hs⟩ := hstore
        subst hs
        simp [get_auth_token, get_password, h1, hget, Store.set]
      | some rv =>
        cases h3 : f.entryNew refreshKey with
        | some e => simp [store_auth_token, set_password, h1, h2, h3] at hstore
        | none =>
          cases h4 : f.setPassword refreshKey rv with
          | some e =>
            simp [store_auth_token, set_password, h1, h2, h3, h4] at hstore
          | none =>
            simp [store_auth_token, set_password, h1, h2, h3, h4] at hstore
            obtain ⟨hb, hs⟩ := hstore
            subst hs
            simp [get_auth_token, get_password, h1, hget, Store.set, hne,
              hne.symm]

/-- Closed instance of C1: storing "abc123" with refresh "rfh456" on the empty
vault with no faults, then fetching, returns "abc123". -/
theorem store_then_get_roundtrip_witness :
    (get_auth_token noFaults
      (Store.set (Store.set emptyStore authKey "abc123") refreshKey "rfh456")).1 =
      .ok (some "abc123") :=
  store_then_get_roundtrip noFaults emptyStore "abc123" (some "rfh456") true
    (Store.set (Store.set emptyStore authKey "abc123") refreshKey "rfh456")
    rfl rfl

/-- C2: when the write of `t` under `auth_token` succeeds but the write of the
refresh token is rejected, `store_auth_token(t, Some rv)` returns an
`AuthError` while the `auth_token` entry still holds `t` (no rollback). -/
theorem store_partial_failure_no_rollback (f : Faults) (s : Store) (t rv : String)
    (e : KError)
    (h1 : f.entryNew authKey = none)
    (h2 : f.setPassword authKey t = none)
    (h3 : f.entryNew refreshKey = none)
    (h4 : f.setPassword refreshKey rv = some e) :
    (store_auth_token f s t (some rv)).1 =
      .error ⟨"STORE_ERROR", "Failed to store refresh token: " ++ e.toMessage⟩ ∧
    (store_auth_token f s t (some rv)).2 authKey = some t := by
  constructor <;> simp [store_auth_token, set_password, h1, h2, h3, h4, Store.set]

/-- Closed instance of C2: with only the refresh-token write rejected, storing
"abc123" with refresh "rfh456" errs while "abc123" remains stored. -/
theorem store_partial_failure_no_rollback_witness :
    (store_auth_token refreshWriteFaults emptyStore "abc123" (some "rfh456")).1 =
      .error ⟨"STORE_ERROR",
        "Failed to store refresh token: " ++ (KError.other "write rejected").toMessage⟩ ∧
    (store_auth_token refreshWriteFaults emptyStore "abc123" (some "rfh456")).2
      authKey = some "abc123" :=
  store_partial_failure_no_rollback refreshWriteFaults emptyStore "abc123"
    "rfh456" (KError.other "write rejected") rfl (by decide) rfl (by decide)

/-- C4: `get_auth_token` returns `Ok(None)` exactly when the vault reports no
entry for the `auth_token` account; it returns a `KEYRING_ERROR` when entry
construction fails, and a `RETRIEVE_ERROR` for any other read failure. -/
theorem get_auth_token_error_taxonomy (f : Faults) (s : Store) :
    ((get_auth_token f s).1 = .ok none ↔
      f.entryNew authKey = none ∧ get_password f s authKey = .error .noEntry) ∧
    (∀ e, f.entryNew authKey = some e →
      (get_auth_token f s).1 =
        .error ⟨"KEYRING_ERROR", "Failed to access keyring: " ++ e.toMessage⟩) ∧
    (∀ msg, f.entryNew authKey = none →
      get_password f s authKey = .error (.other msg) →
      (get_auth_token f s).1 =
        .error ⟨"RETRIEVE_ERROR", "Failed to retrieve token: " ++ msg⟩) := by
  refine ⟨?_, fun e he => ?_, fun msg hn hg => ?_⟩
  · cases h1 : f.entryNew authKey with
    | some e => simp [get_auth_token, h1]
    | none =>
      cases hg : get_password f s authKey with
      | ok v => simp [get_auth_token, h1, hg]
      | error e =>
        cases e with
        | noEntry => simp [get_auth_token, h1, hg]
        | other m => simp [get_auth_token, h1, hg]
  · simp [get_auth_token, he]
  · simp [get_auth_token, hn, hg, KError.toMessage]

/-- Closed instance of C4: fetching from a fresh vault with no prior store
returns absence, not an error. -/
theorem get_auth_token_error_taxonomy_witness :
    (get_auth_token noFaults emptyStore).1 = .ok none :=
  (get_auth_token_error_taxonomy noFaults emptyStore).1.mpr ⟨rfl, rfl⟩

/-- Fault oracle with the whole keyring backend unaddressable. -/
def keyringDownFaults : Faults :=
  { entryNew := fun _ => some (.other "platform secure storage failure")
    setPassword := fun _ _ => none
    getPassword := fun _ => none
    deleteCredential := fun _ => none }

/-- Fault oracle that rejects only the write to the `auth_token` account. -/
def authWriteFaults : Faults :=
  { entryNew := fun _ => none
    setPassword := fun k _ => if k = authKey then some (.other "quota exceeded") else none
    getPassword := fun _ => none
    deleteCredential := fun _ => none }

/-- Fault oracle with only the `auth_token` entry unaddressable. -/
def authDownFaults : Faults :=
  { entryNew := fun k => if k = authKey then some (.other "auth entry unavailable") else none
    setPassword := fun _ _ => none
    getPassword := fun _ => none
    deleteCredential := fun _ => none }

/-- C5: `store_auth_token` fails with `KEYRING_ERROR` exactly when opening the
entry fails for either account, with `STORE_ERROR` exactly when a write is
rejected, succeeds when everything goes through, and in every error case the
message carries the underlying vault error's text. -/
theorem store_auth_token_error_taxonomy (f : Faults) (s : Store) (t : String)
    (r : Option String) :
    (∀ e, f.entryNew authKey = some e →
      (store_auth_token f s t r).1 =
        .error ⟨"KEYRING_ERROR", "Failed to access keyring: " ++ e.toMessage⟩) ∧
    (∀ e, f.entryNew authKey = none → f.setPassword authKey t = some e →
      (store_auth_token f s t r).1 =
        .error ⟨"STORE_ERROR", "Failed to store token: " ++ e.toMessage⟩) ∧
    (∀ rv e, r = some rv → f.entryNew authKey = none →
      f.setPassword authKey t = none → f.entryNew refreshKey = some e →
      (store_auth_token f s t r).1 =
        .error ⟨"KEYRING_ERROR",
          "Failed to access keyring for refresh token: " ++ e.toMessage⟩) ∧
    (∀ rv e, r = some rv → f.entryNew authKey = none →
      f.setPassword authKey t = none → f.entryNew refreshKey = none →
      f.setPassword refreshKey rv = some e →
      (store_auth_token f s t r).1 =
        .error ⟨"STORE_ERROR", "Failed to store refresh token: " ++ e.toMessage⟩) ∧
    (f.entryNew authKey = none → f.setPassword authKey t = none →
      (r = none ∨ ∃ rv, r = some rv ∧ f.entryNew refreshKey = none ∧
        f.setPassword refreshKey rv = none) →
      (store_auth_token f s t r).1 = .ok true) := by
  refine ⟨fun e h1 => ?_, fun e h1 h2 => ?_, fun rv e hr h1 h2 h3 => ?_,
    fun rv e hr h1 h2 h3 h4 => ?_, fun h1 h2 hr => ?_⟩
  · simp [store_auth_token, h1]
  · simp [store_auth_token, set_password, h1, h2]
  · subst hr
    simp [store_auth_token, set_password, h1, h2, h3]
  · subst hr
    simp [store_auth_token, set_password, h1, h2, h3, h4]
  · rcases hr with rfl | ⟨rv, rfl, h3, h4⟩
    · simp [store_auth_token, set_password, h1, h2]
    · simp [store_auth_token, set_password, h1, h2, h3, h4]

/-- Closed instances of C5: an unaddressable backend yields `KEYRING_ERROR`
with the vault error's text, a rejected write yields `STORE_ERROR` with the
vault error's text, and a fault-free store succeeds. -/
theorem store_auth_token_error_taxonomy_witness :
    (store_auth_token keyringDownFaults emptyStore "tok" none).1 =
      .error ⟨"KEYRING_ERROR", "Failed to access keyring: " ++
        (KError.other "platform secure storage failure").toMessage⟩ ∧
    (store_auth_token authWriteFaults emptyStore "tok" none).1 =
      .error ⟨"STORE_ERROR", "Failed to store token: " ++
        (KError.other "quota exceeded").toMessage⟩ ∧
    (store_auth_token noFaults emptyStore "tok" none).1 = .ok true :=
  ⟨(store_auth_token_error_taxonomy keyringDownFaults emptyStore "tok" none).1
      (KError.other "platform secure storage failure") rfl,
   (store_auth_token_error_taxonomy authWriteFaults emptyStore "tok" none).2.1
      (KError.other "quota exceeded") rfl (by decide),
   (store_auth_token_error_taxonomy noFaults emptyStore "tok" none).2.2.2.2
      rfl rfl (Or.inl rfl)⟩

/-- C7: after `store_auth_token(t, r)` followed by `clear_auth_tokens()` with
the vault deletions succeeding, a subsequent non-faulted `get_auth_token()`
returns absence. -/
theorem store_clear_get_absent (f : Faults) (s : Store) (t : String)
    (r : Option String)
    (h1 : f.entryNew authKey = none)
    (h2 : f.entryNew refreshKey = none)
    (h3 : f.deleteCredential authKey = none)
    (h4 : f.deleteCredential refreshKey = none)
    (h5 : f.getPassword authKey = none) :
    (get_auth_token f
      (clear_auth_tokens f (store_auth_token f s t r).2).2).1 = .ok none := by
  have hne : authKey ≠ refreshKey := Ne.symm refreshKey_ne_authKey
  simp [clear_auth_tokens, delete_credential, get_auth_token, get_password,
    h1, h2, h3, h4, h5, Store.del, hne]

/-- Closed instance of C7, the spec's concrete scenario: store "abc123" with
refresh "rfh456", clear, then fetch yields absence. -/
theorem store_clear_get_absent_witness :
    (get_auth_token noFaults
      (clear_auth_tokens noFaults
        (store_auth_token noFaults emptyStore "abc123" (some "rfh456")).2).2).1 =
      .ok none :=
  store_clear_get_absent noFaults emptyStore "abc123" (some "rfh456")
    rfl rfl rfl rfl rfl

/-- C8: the two secrets live under distinct accounts of the same service
identifier, and the fetched primary token after a store is the same whether or
not a refresh token was supplied. -/
theorem refresh_supply_no_effect_on_get (f : Faults) (s : Store) (t rv : String) :
    authKey.1 = refreshKey.1 ∧ authKey.2 ≠ refreshKey.2 ∧
    (get_auth_token f (store_auth_token f s t (some rv)).2).1 =
      (get_auth_token f (store_auth_token f s t none).2).1 := by
  have hne := refreshKey_ne_authKey
  have hne' := hne.symm
  refine ⟨rfl, by simp [authKey, refreshKey], ?_⟩
  apply get_auth_token_fst_congr
  cases h1 : f.entryNew authKey with
  | some e => simp [store_auth_token, h1]
  | none =>
    cases h2 : f.setPassword authKey t with
    | some e => simp [store_auth_token, set_password, h1, h2]
    | none =>
      cases h3 : f.entryNew refreshKey with
      | some e => simp [store_auth_token, set_password, h1, h2, h3]
      | none =>
        cases h4 : f.setPassword refreshKey rv with
        | some e => simp [store_auth_token, set_password, h1, h2, h3, h4]
        | none =>
          simp [store_auth_token, set_password, h1, h2, h3, h4, Store.set,
            hne, hne']

/-- C10: `clear_auth_tokens` clears the `refresh_token` entry whenever its own
open and delete succeed, regardless of any failure on the `auth_token` side. -/
theorem clear_refresh_independent_of_auth_failure (f : Faults) (s : Store)
    (h1 : f.entryNew refreshKey = none)
    (h2 : f.deleteCredential refreshKey = none) :
    (clear_auth_tokens f s).2 refreshKey = none := by
  simp [clear_auth_tokens, delete_credential, h1, h2, Store.del]

/-- Closed instance of C10: with the `auth_token` entry unaddressable, clearing
still removes a stored refresh token. -/
theorem clear_refresh_independent_witness :
    (clear_auth_tokens authDownFaults
      (Store.set emptyStore refreshKey "rfh456")).2 refreshKey = none :=
  clear_refresh_independent_of_auth_failure authDownFaults
    (Store.set emptyStore refreshKey "rfh456") (by decide) rfl

end LandApp
